import Mathlib

/-!
# Verification of the `scrapyd-api` wrapper (`src/scrapyd_api/wrapper.py`)

A shallow embedding of the `ScrapydAPI` façade class.  Python decoded JSON
values are modelled by `JVal`; Python dictionaries by association lists with
Python's update semantics (replace the existing entry in place, else append);
the injected HTTP delegate by a `Client` record of pure functions; each public
operation returns the list of delegate calls it performed together with its
result (`Except PyError _` models Python exceptions escaping the call).

The repository modules `constants.py`, `client.py` and `compat.py` are not
present under `src/`; the defaults table and `urljoin` they provide are
modelled from the spec (each such definition is marked below).
-/

set_option autoImplicit false

/-- A decoded JSON value (what the delegate's `get`/`post` return, and what is
placed into form-data dictionaries).  `str`, `int`, `bool`, `null`, arrays and
objects cover every value the wrapper manipulates. -/
inductive JVal where
  | str (s : String)
  | int (n : Int)
  | bool (b : Bool)
  | null
  | list (l : List JVal)
  | obj (fields : List (String × JVal))

/-- Python dictionary with `String` keys, in insertion order. -/
abbrev Dict (α : Type) := List (String × α)

/-- Python `d[k] = v` on a dict: replace the first entry whose key is `k`
(keeping its position), or append a fresh entry at the end. -/
def dictInsert {α : Type} : Dict α → String → α → Dict α
  | [], k, v => [(k, v)]
  | p :: rest, k, v =>
    if p.1 = k then (p.1, v) :: rest else p :: dictInsert rest k v

/-- Python `d.update(e)`: insert every entry of `e` into `d`, in order. -/
def dictUpdate {α : Type} (d e : Dict α) : Dict α :=
  e.foldl (fun acc p => dictInsert acc p.1 p.2) d

/-- Python `k in d` for a dict. -/
def dictMem {α : Type} (k : String) (d : Dict α) : Bool :=
  d.any (fun p => p.1 = k)

/-- The Python exceptions the wrapper can raise or let escape. -/
inductive PyError where
  | valueError (msg : String)
  | keyError (key : String)
  | typeError (msg : String)
  deriving DecidableEq

/-- Python subscription `j[k]` on a decoded JSON value: a key lookup when `j`
is an object (raising `KeyError` on absence), a `TypeError` otherwise. -/
def getField (j : JVal) (k : String) : Except PyError JVal :=
  match j with
  | JVal.obj fields =>
    match fields.lookup k with
    | some v => Except.ok v
    | none => Except.error (PyError.keyError k)
  | _ => Except.error (PyError.typeError "value is not subscriptable by string")

/-- Python `v == s` where `s` is a `str` literal: true exactly when `v` is an
equal string; values of any other type compare unequal to a string. -/
def pyEqStr (v : JVal) (s : String) : Bool :=
  match v with
  | JVal.str t => t == s
  | _ => false

/-- The delegate HTTP client's capability set:
`get(url, params) -> parsed_body` and `post(url, data, files) -> parsed_body`.
Pure functions model the (externally supplied) transport. -/
structure Client where
  get : String → Dict String → JVal
  post : String → Dict JVal → Dict JVal → JVal

/-- A delegate that answers every request with the fixed body `resp`;
used to quantify theorems over arbitrary response bodies. -/
def constClient (resp : JVal) : Client :=
  { get := fun _ _ => resp, post := fun _ _ _ => resp }

/-- One observable call made to the delegate. -/
inductive Call where
  | get (url : String) (params : Dict String)
  | post (url : String) (data : Dict JVal) (files : Dict JVal)

/-- Modelled from the spec: logical endpoint name constant
`constants.ADD_VERSION_ENDPOINT` (the `constants` module is absent from
`src/`; the key strings are internal, the paths below follow spec section 6). -/
def ADD_VERSION_ENDPOINT : String := "add_version"

/-- Modelled from the spec: `constants.CANCEL_ENDPOINT`. -/
def CANCEL_ENDPOINT : String := "cancel"

/-- Modelled from the spec: `constants.DELETE_PROJECT_ENDPOINT`. -/
def DELETE_PROJECT_ENDPOINT : String := "delete_project"

/-- Modelled from the spec: `constants.DELETE_VERSION_ENDPOINT`. -/
def DELETE_VERSION_ENDPOINT : String := "delete_version"

/-- Modelled from the spec: `constants.LIST_JOBS_ENDPOINT`. -/
def LIST_JOBS_ENDPOINT : String := "list_jobs"

/-- Modelled from the spec: `constants.LIST_PROJECTS_ENDPOINT`. -/
def LIST_PROJECTS_ENDPOINT : String := "list_projects"

/-- Modelled from the spec: `constants.LIST_SPIDERS_ENDPOINT`. -/
def LIST_SPIDERS_ENDPOINT : String := "list_spiders"

/-- Modelled from the spec: `constants.LIST_VERSIONS_ENDPOINT`. -/
def LIST_VERSIONS_ENDPOINT : String := "list_versions"

/-- Modelled from the spec: `constants.SCHEDULE_ENDPOINT`. -/
def SCHEDULE_ENDPOINT : String := "schedule"

/-- Modelled from the spec: `constants.DEFAULT_ENDPOINTS`, the built-in
endpoint-name-to-relative-path table; the paths are the service-defined ones
listed in spec section 6 (`addversion.json`, `cancel.json`, ...). -/
def DEFAULT_ENDPOINTS : Dict String :=
  [(ADD_VERSION_ENDPOINT, "addversion.json"),
   (CANCEL_ENDPOINT, "cancel.json"),
   (DELETE_PROJECT_ENDPOINT, "delproject.json"),
   (DELETE_VERSION_ENDPOINT, "delversion.json"),
   (LIST_JOBS_ENDPOINT, "listjobs.json"),
   (LIST_PROJECTS_ENDPOINT, "listprojects.json"),
   (LIST_SPIDERS_ENDPOINT, "listspiders.json"),
   (LIST_VERSIONS_ENDPOINT, "listversions.json"),
   (SCHEDULE_ENDPOINT, "schedule.json")]

/-- The characters before and after the first occurrence of `pat` inside a
character list (`none` when `pat` does not occur). -/
def splitFirst (pat : List Char) : List Char → Option (List Char × List Char)
  | [] => none
  | c :: cs =>
    if pat.isPrefixOf (c :: cs) then some ([], (c :: cs).drop pat.length)
    else
      match splitFirst pat cs with
      | some (b, a) => some (c :: b, a)
      | none => none

/-- The characters up to and including the last slash (`[]` when there is
none). -/
def upToLastSlash : List Char → List Char
  | [] => []
  | c :: cs =>
    if cs.contains '/' then c :: upToLastSlash cs
    else if c = '/' then [c] else []

/-- The portion of a base URL up to the end of the authority, and its path:
for `"http://host:6800/a/b"` yields `("http://host:6800", "/a/b")`;
`none` when the base has no `"://"` scheme separator. -/
def splitAuthority (base : String) : Option (String × String) :=
  match splitFirst "://".toList base.toList with
  | none => none
  | some (scheme, rest) =>
    match splitFirst ['/'] rest with
    | none => some (String.mk scheme ++ "://" ++ String.mk rest, "")
    | some (auth, path) =>
      some (String.mk scheme ++ "://" ++ String.mk auth, "/" ++ String.mk path)

/-- RFC 3986 path merge: the base path with its last segment replaced by the
relative reference; an empty base path (authority present) merges as a root
path. -/
def mergePath (path rel : String) : String :=
  if path = "" then "/" ++ rel
  else String.mk (upToLastSlash path.toList) ++ rel

/-- Modelled from the spec: `urljoin` re-exported by the repository's
`compat` module (absent from `src/`), joining a base address and a relative
reference "using standard base+relative URL joining rules" (spec section 4.1).
Covers the cases the wrapper exercises: an absolute reference (containing a
scheme) replaces the base; a rooted reference replaces the base path; a
relative reference merges with the base path per RFC 3986. -/
def urljoin (base rel : String) : String :=
  if rel = "" then base
  else if (splitFirst "://".toList rel.toList).isSome then rel
  else
    match splitAuthority base with
    | none => rel
    | some (pre, path) =>
      if ['/'].isPrefixOf rel.toList then pre ++ rel
      else pre ++ mergePath path rel

/-- The `ScrapydAPI` façade: a target base address, the delegate client and
the per-instance endpoint map (`wrapper.py`, class attributes set in
`__init__`). -/
structure ScrapydAPI where
  target : String
  client : Client
  endpoints : Dict String

namespace ScrapydAPI

/-- `ScrapydAPI.__init__`: default target `http://localhost:6800`; missing
`endpoints` behaves as an empty override dict; the instance map is a deep copy
of `DEFAULT_ENDPOINTS` with the overrides merged on top via `dict.update`.
(The default `Client()` construction and `auth` attachment concern the real
HTTP transport, which is external; the delegate is taken as a parameter.) -/
def init (client : Client) (target : String := "http://localhost:6800")
    (endpoints : Option (Dict String) := none) : ScrapydAPI :=
  let endpoints := endpoints.getD []
  { target := target
    client := client
    endpoints := dictUpdate DEFAULT_ENDPOINTS endpoints }

/-- `ScrapydAPI._build_url`: look the endpoint up in the instance map, raising
`ValueError` naming the endpoint when absent, then join it to the target. -/
def build_url (self : ScrapydAPI) (endpoint : String) : Except PyError String :=
  match self.endpoints.lookup endpoint with
  | none =>
    Except.error (PyError.valueError ("Unknown endpoint `" ++ endpoint ++ "`"))
  | some path => Except.ok (urljoin self.target path)

/-- `ScrapydAPI.add_version`: POST project/version form fields and the egg
file, return the `spiders` field of the response. -/
def add_version (self : ScrapydAPI) (project version egg : JVal) :
    List Call × Except PyError JVal :=
  match self.build_url ADD_VERSION_ENDPOINT with
  | Except.error e => ([], Except.error e)
  | Except.ok url =>
    let data : Dict JVal := [("project", project), ("version", version)]
    let files : Dict JVal := [("egg", egg)]
    let json := self.client.post url data files
    ([Call.post url data files], getField json "spiders")

/-- `ScrapydAPI.cancel`: POST project/job form fields, return
`True if json[prevstate] == running else False`. -/
def cancel (self : ScrapydAPI) (project job : JVal) :
    List Call × Except PyError Bool :=
  match self.build_url CANCEL_ENDPOINT with
  | Except.error e => ([], Except.error e)
  | Except.ok url =>
    let data : Dict JVal := [("project", project), ("job", job)]
    let json := self.client.post url data []
    ([Call.post url data []],
     match getField json "prevstate" with
     | Except.error e => Except.error e
     | Except.ok v => Except.ok (if pyEqStr v "running" then true else false))

/-- `ScrapydAPI.delete_project`: POST the project form field, ignore the
response body, return `True`. -/
def delete_project (self : ScrapydAPI) (project : JVal) :
    List Call × Except PyError Bool :=
  match self.build_url DELETE_PROJECT_ENDPOINT with
  | Except.error e => ([], Except.error e)
  | Except.ok url =>
    let data : Dict JVal := [("project", project)]
    let _ := self.client.post url data []
    ([Call.post url data []], Except.ok true)

/-- `ScrapydAPI.delete_version`: POST project/version form fields, ignore the
response body, return `True`. -/
def delete_version (self : ScrapydAPI) (project version : JVal) :
    List Call × Except PyError Bool :=
  match self.build_url DELETE_VERSION_ENDPOINT with
  | Except.error e => ([], Except.error e)
  | Except.ok url =>
    let data : Dict JVal := [("project", project), ("version", version)]
    let _ := self.client.post url data []
    ([Call.post url data []], Except.ok true)

/-- `ScrapydAPI.list_jobs`: GET with the project query param, return the raw
parsed body unchanged. -/
def list_jobs (self : ScrapydAPI) (project : String) :
    List Call × Except PyError JVal :=
  match self.build_url LIST_JOBS_ENDPOINT with
  | Except.error e => ([], Except.error e)
  | Except.ok url =>
    let params : Dict String := [("project", project)]
    let jobs := self.client.get url params
    ([Call.get url params], Except.ok jobs)

/-- `ScrapydAPI.list_projects`: GET with no params, return the `projects`
field of the response. -/
def list_projects (self : ScrapydAPI) : List Call × Except PyError JVal :=
  match self.build_url LIST_PROJECTS_ENDPOINT with
  | Except.error e => ([], Except.error e)
  | Except.ok url =>
    let json := self.client.get url []
    ([Call.get url []], getField json "projects")

/-- `ScrapydAPI.list_spiders`: GET with the project query param, return the
`spiders` field of the response. -/
def list_spiders (self : ScrapydAPI) (project : String) :
    List Call × Except PyError JVal :=
  match self.build_url LIST_SPIDERS_ENDPOINT with
  | Except.error e => ([], Except.error e)
  | Except.ok url =>
    let params : Dict String := [("project", project)]
    let json := self.client.get url params
    ([Call.get url params], getField json "spiders")

/-- `ScrapydAPI.list_versions`: GET with the project query param, return the
`versions` field of the response. -/
def list_versions (self : ScrapydAPI) (project : String) :
    List Call × Except PyError JVal :=
  match self.build_url LIST_VERSIONS_ENDPOINT with
  | Except.error e => ([], Except.error e)
  | Except.ok url =>
    let params : Dict String := [("project", project)]
    let json := self.client.get url params
    ([Call.get url params], getField json "versions")

/-- `ScrapydAPI.schedule`: form data starts with the project and spider
fields, `kwargs` is merged in by `dict.update`, then a non-empty (truthy)
settings mapping is serialized entry-by-entry as `name=value` strings and
stored under the `setting` key; the POST response's `jobid` field is
returned.  A settings entry is taken after Python's `str()` was applied to
its name and value, so `{0}={1}`-formatting is string concatenation. -/
def schedule (self : ScrapydAPI) (project spider : String)
    (settings : Dict String := []) (kwargs : Dict JVal := []) :
    List Call × Except PyError JVal :=
  match self.build_url SCHEDULE_ENDPOINT with
  | Except.error e => ([], Except.error e)
  | Except.ok url =>
    let data : Dict JVal := [("project", JVal.str project), ("spider", JVal.str spider)]
    let data := dictUpdate data kwargs
    let data :=
      if settings.isEmpty then data
      else
        let setting_params := settings.map (fun q => JVal.str (q.1 ++ "=" ++ q.2))
        dictInsert data "setting" (JVal.list setting_params)
    let json := self.client.post url data []
    ([Call.post url data []], getField json "jobid")

end ScrapydAPI

/-- The form data of the single POST call an operation performed (`[]` when
the operation failed before calling the delegate). -/
def sentData {α : Type} (r : List Call × Except PyError α) : Dict JVal :=
  match r.1 with
  | [Call.post _ d _] => d
  | _ => []

/-!
## Heap-level model of construction

`__init__` copies `constants.DEFAULT_ENDPOINTS` with `deepcopy` and merges the
caller overrides into the copy with `dict.update`.  To state copy
independence (mutating one instance's dict never changes another's, nor the
default table) the dict objects live in an explicit store of cells addressed
by references; `deepcopy` allocates a fresh cell.
-/

/-- A store of Python dict objects: `read` gives the contents of each cell,
references below `next` are the allocated ones. -/
structure Store where
  next : Nat
  read : Nat → Dict String

/-- Allocate a fresh cell holding `d`, returning the new store and the fresh
reference. -/
def Store.alloc (s : Store) (d : Dict String) : Store × Nat :=
  ({ next := s.next + 1,
     read := fun r => if r = s.next then d else s.read r }, s.next)

/-- Overwrite the cell at `r`. -/
def Store.write (s : Store) (r : Nat) (d : Dict String) : Store :=
  { s with read := fun x => if x = r then d else s.read x }

/-- Python `store[r][k] = v`: in-place mutation of the dict object at `r`. -/
def Store.setItem (s : Store) (r : Nat) (k v : String) : Store :=
  s.write r (dictInsert (s.read r) k v)

/-- The endpoint-map part of `ScrapydAPI.__init__` at the heap level:
`deepcopy` the dict at `defaultsRef` into a fresh cell, then
`dict.update` the overrides into the fresh cell only. -/
def initEndpointsRef (s : Store) (defaultsRef : Nat) (overrides : Dict String) :
    Store × Nat :=
  s.alloc (dictUpdate (s.read defaultsRef) overrides)

instance {ε α : Type} [DecidableEq ε] [DecidableEq α] :
    DecidableEq (Except ε α) := fun x y =>
  match x, y with
  | Except.ok a, Except.ok b =>
    if h : a = b then isTrue (by rw [h])
    else isFalse (fun hc => by cases hc; exact h rfl)
  | Except.error a, Except.error b =>
    if h : a = b then isTrue (by rw [h])
    else isFalse (fun hc => by cases hc; exact h rfl)
  | Except.ok _, Except.error _ => isFalse (fun hc => by cases hc)
  | Except.error _, Except.ok _ => isFalse (fun hc => by cases hc)
/-!
## Dictionary lemmas
-/

theorem lookup_cons {α : Type} (p : String × α) (d : Dict α) (k : String) :
    List.lookup k (p :: d) = if k = p.1 then some p.2 else List.lookup k d := by
  obtain ⟨a, b⟩ := p
  by_cases h : k = a
  · subst h
    simp [List.lookup]
  · have hb : (k == a) = false := by
      simpa using h
    simp [List.lookup, hb, h]

theorem lookup_dictInsert_self {α : Type} (d : Dict α) (k : String) (v : α) :
    (dictInsert d k v).lookup k = some v := by
  induction d with
  | nil => simp [dictInsert, lookup_cons]
  | cons p rest ih =>
    by_cases h : p.1 = k
    · simp [dictInsert, h, lookup_cons]
    · have hne : k ≠ p.1 := fun hk => h hk.symm
      simp [dictInsert, h, lookup_cons, hne, ih]

theorem lookup_dictInsert_ne {α : Type} (d : Dict α) (k k' : String) (v : α)
    (h : k ≠ k') : (dictInsert d k' v).lookup k = d.lookup k := by
  induction d with
  | nil =>
    show List.lookup k ((k', v) :: []) = List.lookup k []
    rw [lookup_cons, if_neg h]
  | cons p rest ih =>
    by_cases hp : p.1 = k'
    · subst hp
      simp [dictInsert, lookup_cons, h, ih]
    · simp [dictInsert, hp, lookup_cons, ih]

theorem lookup_eq_none_of_not_mem_keys {α : Type} (d : Dict α) (k : String)
    (h : k ∉ d.map Prod.fst) : d.lookup k = none := by
  induction d with
  | nil => simp [List.lookup]
  | cons p rest ih =>
    have hne : k ≠ p.1 := by
      intro hk
      apply h
      rw [hk]
      exact List.mem_map_of_mem _ (List.mem_cons_self p rest)
    rw [lookup_cons, if_neg hne]
    exact ih (fun hm => h (List.mem_cons_of_mem _ hm))

/-- The effect of Python `d.update(e)` on lookups when `e` has no duplicate
keys (every Python dict satisfies this): an entry of `e` wins, otherwise the
entry of `d` survives. -/
theorem lookup_dictUpdate {α : Type} (d e : Dict α) (k : String)
    (h : (e.map Prod.fst).Nodup) :
    (dictUpdate d e).lookup k = (e.lookup k).or (d.lookup k) := by
  induction e generalizing d with
  | nil => simp [dictUpdate, List.lookup]
  | cons p rest ih =>
    have hcons := List.nodup_cons.mp (show (p.1 :: rest.map Prod.fst).Nodup from h)
    have step : dictUpdate d (p :: rest) = dictUpdate (dictInsert d p.1 p.2) rest := by
      simp [dictUpdate]
    rw [step, ih _ hcons.2]
    by_cases hk : k = p.1
    · rw [hk, lookup_eq_none_of_not_mem_keys rest p.1 hcons.1,
          lookup_dictInsert_self, lookup_cons, if_pos rfl]
      rfl
    · rw [lookup_dictInsert_ne _ _ _ _ hk, lookup_cons, if_neg hk]

theorem lookup_dictUpdate_of_lookup_some {α : Type} (d e : Dict α)
    (k : String) (v : α) (h : (e.map Prod.fst).Nodup)
    (hv : e.lookup k = some v) : (dictUpdate d e).lookup k = some v := by
  rw [lookup_dictUpdate d e k h, hv]
  rfl

theorem lookup_dictUpdate_of_lookup_none {α : Type} (d e : Dict α)
    (k : String) (h : (e.map Prod.fst).Nodup)
    (hv : e.lookup k = none) : (dictUpdate d e).lookup k = d.lookup k := by
  rw [lookup_dictUpdate d e k h, hv]
  rfl

/-!
## Helper lemmas about response handling
-/

theorem pyEqStr_true_iff (v : JVal) (s : String) :
    pyEqStr v s = true ↔ v = JVal.str s := by
  cases v <;> simp [pyEqStr]

/-!
## Claim theorems
-/

/-- C1: for every response body carrying a `prevstate` field, `cancel`
returns `true` exactly when that field is the literal string `"running"`,
and returns `false` for every other value. -/
theorem cancel_true_iff_prevstate_running
    (target : String) (resp project job v : JVal)
    (hv : getField resp "prevstate" = Except.ok v) :
    (((ScrapydAPI.init (constClient resp) target).cancel project job).2
        = Except.ok true ↔ v = JVal.str "running") ∧
    (((ScrapydAPI.init (constClient resp) target).cancel project job).2
        = Except.ok false ↔ v ≠ JVal.str "running") := by
  have h2 : ((ScrapydAPI.init (constClient resp) target).cancel project job).2
      = (match getField resp "prevstate" with
         | Except.error e => Except.error e
         | Except.ok v => Except.ok (if pyEqStr v "running" then true else false)) := rfl
  rw [h2, hv]
  by_cases hrun : v = JVal.str "running"
  · subst hrun
    simp [pyEqStr]
  · have hfalse : pyEqStr v "running" = false := by
      cases hb : pyEqStr v "running" with
      | false => rfl
      | true => exact absurd ((pyEqStr_true_iff v "running").mp hb) hrun
    simp [hfalse, hrun]

/-- Witness for C1 at a concrete response with `prevstate = "running"`. -/
theorem cancel_true_iff_prevstate_running_witness :
    getField (JVal.obj [("prevstate", JVal.str "running")]) "prevstate"
        = Except.ok (JVal.str "running") ∧
    (((ScrapydAPI.init (constClient (JVal.obj [("prevstate", JVal.str "running")]))
          "http://localhost:6800").cancel (JVal.str "p") (JVal.str "j")).2
        = Except.ok true ↔ JVal.str "running" = JVal.str "running") ∧
    (((ScrapydAPI.init (constClient (JVal.obj [("prevstate", JVal.str "running")]))
          "http://localhost:6800").cancel (JVal.str "p") (JVal.str "j")).2
        = Except.ok false ↔ JVal.str "running" ≠ JVal.str "running") :=
  ⟨rfl, cancel_true_iff_prevstate_running "http://localhost:6800"
      (JVal.obj [("prevstate", JVal.str "running")])
      (JVal.str "p") (JVal.str "j") (JVal.str "running") rfl⟩

/-- C2: for an endpoint name absent from the instance map, `_build_url`
fails with a `ValueError` whose message contains the offending name, whatever
the target and the rest of the map; and an operation hitting the unknown
endpoint (here `cancel`) makes no delegate call at all. -/
theorem build_url_unknown_endpoint (api : ScrapydAPI) (name : String)
    (h : api.endpoints.lookup name = none) :
    (api.build_url name
        = Except.error (PyError.valueError ("Unknown endpoint `" ++ name ++ "`"))) ∧
    (∃ pre post, ("Unknown endpoint `" ++ name ++ "`") = pre ++ name ++ post) ∧
    (name = CANCEL_ENDPOINT → ∀ project job : JVal,
      api.cancel project job
        = ([], Except.error
            (PyError.valueError ("Unknown endpoint `" ++ name ++ "`")))) := by
  refine ⟨?_, ⟨"Unknown endpoint `", "`", rfl⟩, ?_⟩
  · simp [ScrapydAPI.build_url, h]
  · intro hname project job
    subst hname
    simp [ScrapydAPI.cancel, ScrapydAPI.build_url, h]

/-- Witness for C2: an instance whose endpoint map is empty, queried for the
`cancel` endpoint. -/
theorem build_url_unknown_endpoint_witness :
    ({ target := "http://localhost:6800", client := constClient JVal.null,
        endpoints := [] } : ScrapydAPI).endpoints.lookup CANCEL_ENDPOINT = none ∧
    ({ target := "http://localhost:6800", client := constClient JVal.null,
        endpoints := [] } : ScrapydAPI).build_url CANCEL_ENDPOINT
        = Except.error (PyError.valueError ("Unknown endpoint `" ++ CANCEL_ENDPOINT ++ "`")) ∧
    (∃ pre post, ("Unknown endpoint `" ++ CANCEL_ENDPOINT ++ "`")
        = pre ++ CANCEL_ENDPOINT ++ post) ∧
    (CANCEL_ENDPOINT = CANCEL_ENDPOINT → ∀ project job : JVal,
      ({ target := "http://localhost:6800", client := constClient JVal.null,
          endpoints := [] } : ScrapydAPI).cancel project job
        = ([], Except.error
            (PyError.valueError ("Unknown endpoint `" ++ CANCEL_ENDPOINT ++ "`")))) :=
  ⟨rfl, build_url_unknown_endpoint
      { target := "http://localhost:6800", client := constClient JVal.null,
        endpoints := [] } CANCEL_ENDPOINT rfl⟩

/-- C9: for every endpoint name present in the instance map, `_build_url`
returns the join of the target and the endpoint path; in particular with
target `http://host:6800` the `list_jobs` endpoint resolves to
`http://host:6800/listjobs.json`. -/
theorem build_url_joins_target_and_path (api : ScrapydAPI) (name path : String)
    (h : api.endpoints.lookup name = some path) :
    (api.build_url name = Except.ok (urljoin api.target path)) ∧
    ((ScrapydAPI.init (constClient JVal.null) "http://host:6800").build_url
        LIST_JOBS_ENDPOINT = Except.ok "http://host:6800/listjobs.json") := by
  constructor
  · simp [ScrapydAPI.build_url, h]
  · decide

/-- Witness for C9: the default map holds `listjobs.json` for the
`list_jobs` endpoint. -/
theorem build_url_joins_target_and_path_witness :
    ((ScrapydAPI.init (constClient JVal.null)
        "http://host:6800").endpoints.lookup LIST_JOBS_ENDPOINT
      = some "listjobs.json") ∧
    (((ScrapydAPI.init (constClient JVal.null) "http://host:6800").build_url
        LIST_JOBS_ENDPOINT
      = Except.ok (urljoin
          (ScrapydAPI.init (constClient JVal.null) "http://host:6800").target
          "listjobs.json")) ∧
    ((ScrapydAPI.init (constClient JVal.null) "http://host:6800").build_url
        LIST_JOBS_ENDPOINT = Except.ok "http://host:6800/listjobs.json")) :=
  ⟨rfl, build_url_joins_target_and_path
      (ScrapydAPI.init (constClient JVal.null) "http://host:6800")
      LIST_JOBS_ENDPOINT "listjobs.json" rfl⟩

/-- C3: at construction the instance endpoint map is an independent copy of
the defaults with the caller's overrides winning per key; the defaults cell is
never touched, two instances get distinct cells, and mutating one instance's
cell changes neither the other instance's cell nor the defaults. -/
theorem init_endpoint_map_copy_and_merge
    (s0 : Store) (d : Nat) (ov1 ov2 : Dict String)
    (hd : d < s0.next) (hnodup : (ov1.map Prod.fst).Nodup)
    (s1 : Store) (r1 : Nat) (s2 : Store) (r2 : Nat)
    (hs1 : s1 = (initEndpointsRef s0 d ov1).1)
    (hr1 : r1 = (initEndpointsRef s0 d ov1).2)
    (hs2 : s2 = (initEndpointsRef s1 d ov2).1)
    (hr2 : r2 = (initEndpointsRef s1 d ov2).2) :
    (s2.read r1 = dictUpdate (s0.read d) ov1) ∧
    (∀ k v, ov1.lookup k = some v → (s2.read r1).lookup k = some v) ∧
    (∀ k, ov1.lookup k = none → (s2.read r1).lookup k = (s0.read d).lookup k) ∧
    (s2.read d = s0.read d) ∧
    (r1 ≠ r2) ∧
    (∀ k v, (s2.setItem r1 k v).read r2 = s2.read r2) ∧
    (∀ k v, (s2.setItem r1 k v).read d = s2.read d) ∧
    (∀ k v, (s2.setItem r2 k v).read r1 = s2.read r1) := by
  subst hs1 hr1 hs2 hr2
  have hd1 : ¬d = s0.next := Nat.ne_of_lt hd
  have hd2 : ¬d = s0.next + 1 := Nat.ne_of_lt (Nat.lt_succ_of_lt hd)
  have hne : ¬s0.next = s0.next + 1 := Nat.ne_of_lt (Nat.lt_succ_self _)
  have hne' : ¬s0.next + 1 = s0.next := fun h => hne h.symm
  have hread : (initEndpointsRef (initEndpointsRef s0 d ov1).1 d ov2).1.read
      (initEndpointsRef s0 d ov1).2 = dictUpdate (s0.read d) ov1 := by
    simp [initEndpointsRef, Store.alloc, hne']
  refine ⟨hread, ?_, ?_, ?_, ?_, ?_, ?_, ?_⟩
  · intro k v hv
    rw [hread]
    exact lookup_dictUpdate_of_lookup_some _ _ _ _ hnodup hv
  · intro k hv
    rw [hread]
    exact lookup_dictUpdate_of_lookup_none _ _ _ hnodup hv
  · simp [initEndpointsRef, Store.alloc, hd1, hd2]
  · simp [initEndpointsRef, Store.alloc, hne]
  · intro k v
    simp [initEndpointsRef, Store.setItem, Store.write, Store.alloc, hne']
  · intro k v
    simp [initEndpointsRef, Store.setItem, Store.write, Store.alloc, hd1, hd2]
  · intro k v
    simp [initEndpointsRef, Store.setItem, Store.write, Store.alloc, hne']

/-- Witness for C3: defaults at cell 0, one override of the `cancel` path in
the first instance, none in the second. -/
theorem init_endpoint_map_copy_and_merge_witness :
    0 < ({ next := 1, read := fun r => if r = 0 then DEFAULT_ENDPOINTS else [] } : Store).next ∧
    (([("cancel", "mycancel.json")] : Dict String).map Prod.fst).Nodup ∧
    (((initEndpointsRef (initEndpointsRef ({ next := 1, read := fun r => if r = 0 then DEFAULT_ENDPOINTS else [] } : Store) 0 [("cancel", "mycancel.json")]).1 0 []).1.read (initEndpointsRef ({ next := 1, read := fun r => if r = 0 then DEFAULT_ENDPOINTS else [] } : Store) 0 [("cancel", "mycancel.json")]).2 = dictUpdate (({ next := 1, read := fun r => if r = 0 then DEFAULT_ENDPOINTS else [] } : Store).read 0) [("cancel", "mycancel.json")]) ∧
    (∀ k v, ([("cancel", "mycancel.json")] : Dict String).lookup k = some v →
      ((initEndpointsRef (initEndpointsRef ({ next := 1, read := fun r => if r = 0 then DEFAULT_ENDPOINTS else [] } : Store) 0 [("cancel", "mycancel.json")]).1 0 []).1.read (initEndpointsRef ({ next := 1, read := fun r => if r = 0 then DEFAULT_ENDPOINTS else [] } : Store) 0 [("cancel", "mycancel.json")]).2).lookup k = some v) ∧
    (∀ k, ([("cancel", "mycancel.json")] : Dict String).lookup k = none →
      ((initEndpointsRef (initEndpointsRef ({ next := 1, read := fun r => if r = 0 then DEFAULT_ENDPOINTS else [] } : Store) 0 [("cancel", "mycancel.json")]).1 0 []).1.read (initEndpointsRef ({ next := 1, read := fun r => if r = 0 then DEFAULT_ENDPOINTS else [] } : Store) 0 [("cancel", "mycancel.json")]).2).lookup k = (({ next := 1, read := fun r => if r = 0 then DEFAULT_ENDPOINTS else [] } : Store).read 0).lookup k) ∧
    ((initEndpointsRef (initEndpointsRef ({ next := 1, read := fun r => if r = 0 then DEFAULT_ENDPOINTS else [] } : Store) 0 [("cancel", "mycancel.json")]).1 0 []).1.read 0 = ({ next := 1, read := fun r => if r = 0 then DEFAULT_ENDPOINTS else [] } : Store).read 0) ∧
    ((initEndpointsRef ({ next := 1, read := fun r => if r = 0 then DEFAULT_ENDPOINTS else [] } : Store) 0 [("cancel", "mycancel.json")]).2 ≠ (initEndpointsRef (initEndpointsRef ({ next := 1, read := fun r => if r = 0 then DEFAULT_ENDPOINTS else [] } : Store) 0 [("cancel", "mycancel.json")]).1 0 []).2) ∧
    (∀ k v, ((initEndpointsRef (initEndpointsRef ({ next := 1, read := fun r => if r = 0 then DEFAULT_ENDPOINTS else [] } : Store) 0 [("cancel", "mycancel.json")]).1 0 []).1.setItem (initEndpointsRef ({ next := 1, read := fun r => if r = 0 then DEFAULT_ENDPOINTS else [] } : Store) 0 [("cancel", "mycancel.json")]).2 k v).read (initEndpointsRef (initEndpointsRef ({ next := 1, read := fun r => if r = 0 then DEFAULT_ENDPOINTS else [] } : Store) 0 [("cancel", "mycancel.json")]).1 0 []).2 = (initEndpointsRef (initEndpointsRef ({ next := 1, read := fun r => if r = 0 then DEFAULT_ENDPOINTS else [] } : Store) 0 [("cancel", "mycancel.json")]).1 0 []).1.read (initEndpointsRef (initEndpointsRef ({ next := 1, read := fun r => if r = 0 then DEFAULT_ENDPOINTS else [] } : Store) 0 [("cancel", "mycancel.json")]).1 0 []).2) ∧
    (∀ k v, ((initEndpointsRef (initEndpointsRef ({ next := 1, read := fun r => if r = 0 then DEFAULT_ENDPOINTS else [] } : Store) 0 [("cancel", "mycancel.json")]).1 0 []).1.setItem (initEndpointsRef ({ next := 1, read := fun r => if r = 0 then DEFAULT_ENDPOINTS else [] } : Store) 0 [("cancel", "mycancel.json")]).2 k v).read 0 = (initEndpointsRef (initEndpointsRef ({ next := 1, read := fun r => if r = 0 then DEFAULT_ENDPOINTS else [] } : Store) 0 [("cancel", "mycancel.json")]).1 0 []).1.read 0) ∧
    (∀ k v, ((initEndpointsRef (initEndpointsRef ({ next := 1, read := fun r => if r = 0 then DEFAULT_ENDPOINTS else [] } : Store) 0 [("cancel", "mycancel.json")]).1 0 []).1.setItem (initEndpointsRef (initEndpointsRef ({ next := 1, read := fun r => if r = 0 then DEFAULT_ENDPOINTS else [] } : Store) 0 [("cancel", "mycancel.json")]).1 0 []).2 k v).read (initEndpointsRef ({ next := 1, read := fun r => if r = 0 then DEFAULT_ENDPOINTS else [] } : Store) 0 [("cancel", "mycancel.json")]).2 = (initEndpointsRef (initEndpointsRef ({ next := 1, read := fun r => if r = 0 then DEFAULT_ENDPOINTS else [] } : Store) 0 [("cancel", "mycancel.json")]).1 0 []).1.read (initEndpointsRef ({ next := 1, read := fun r => if r = 0 then DEFAULT_ENDPOINTS else [] } : Store) 0 [("cancel", "mycancel.json")]).2)) :=
  ⟨by decide, by decide,
    init_endpoint_map_copy_and_merge ({ next := 1, read := fun r => if r = 0 then DEFAULT_ENDPOINTS else [] } : Store) 0 [("cancel", "mycancel.json")] []
      (by decide) (by decide) (initEndpointsRef ({ next := 1, read := fun r => if r = 0 then DEFAULT_ENDPOINTS else [] } : Store) 0 [("cancel", "mycancel.json")]).1 (initEndpointsRef ({ next := 1, read := fun r => if r = 0 then DEFAULT_ENDPOINTS else [] } : Store) 0 [("cancel", "mycancel.json")]).2 (initEndpointsRef (initEndpointsRef ({ next := 1, read := fun r => if r = 0 then DEFAULT_ENDPOINTS else [] } : Store) 0 [("cancel", "mycancel.json")]).1 0 []).1 (initEndpointsRef (initEndpointsRef ({ next := 1, read := fun r => if r = 0 then DEFAULT_ENDPOINTS else [] } : Store) 0 [("cancel", "mycancel.json")]).1 0 []).2 rfl rfl rfl rfl⟩

/-- C4: a supplied non-empty settings mapping is serialized entry-by-entry to
`name=value` strings (plain concatenation, no escaping) and the whole
collection is stored under the single repeated form field `setting`. -/
theorem schedule_settings_serialization
    (target project spider : String) (resp : JVal)
    (settings : Dict String) (kwargs : Dict JVal)
    (hs : settings ≠ []) :
    (sentData ((ScrapydAPI.init (constClient resp) target).schedule
        project spider settings kwargs)).lookup "setting"
      = some (JVal.list (settings.map (fun q => JVal.str (q.1 ++ "=" ++ q.2)))) := by
  have hred : sentData ((ScrapydAPI.init (constClient resp) target).schedule
        project spider settings kwargs)
      = (if settings.isEmpty
         then dictUpdate
           [("project", JVal.str project), ("spider", JVal.str spider)] kwargs
         else dictInsert
           (dictUpdate
             [("project", JVal.str project), ("spider", JVal.str spider)] kwargs)
           "setting"
           (JVal.list (settings.map (fun q => JVal.str (q.1 ++ "=" ++ q.2))))) := rfl
  rw [hred]
  cases settings with
  | nil => exact absurd rfl hs
  | cons a l =>
    simp [List.isEmpty]
    exact lookup_dictInsert_self _ _ _

/-- Witness for C4: settings `DOWNLOAD_DELAY = 2` yield the form field
`setting = ["DOWNLOAD_DELAY=2"]`. -/
theorem schedule_settings_serialization_witness :
    ([("DOWNLOAD_DELAY", "2")] : Dict String) ≠ [] ∧
    (sentData ((ScrapydAPI.init (constClient JVal.null)
        "http://localhost:6800").schedule "p" "s"
        [("DOWNLOAD_DELAY", "2")] [])).lookup "setting"
      = some (JVal.list
          (([("DOWNLOAD_DELAY", "2")] : Dict String).map
            (fun q => JVal.str (q.1 ++ "=" ++ q.2)))) :=
  ⟨by decide,
   schedule_settings_serialization "http://localhost:6800" "p" "s" JVal.null
     [("DOWNLOAD_DELAY", "2")] [] (by decide)⟩

/-- C5: extra keyword arguments whose keys avoid `project`, `spider` and
`setting` appear as additional top-level form fields alongside the positional
`project` and `spider` fields, and `schedule` returns the `jobid` field of
the response. -/
theorem schedule_kwargs_extra_fields
    (target project spider : String) (resp : JVal)
    (settings : Dict String) (kwargs : Dict JVal)
    (hnodup : (kwargs.map Prod.fst).Nodup)
    (hp : kwargs.lookup "project" = none)
    (hsp : kwargs.lookup "spider" = none) :
    (∀ k v, kwargs.lookup k = some v → k ≠ "setting" →
      (sentData ((ScrapydAPI.init (constClient resp) target).schedule
          project spider settings kwargs)).lookup k = some v) ∧
    ((sentData ((ScrapydAPI.init (constClient resp) target).schedule
        project spider settings kwargs)).lookup "project"
      = some (JVal.str project)) ∧
    ((sentData ((ScrapydAPI.init (constClient resp) target).schedule
        project spider settings kwargs)).lookup "spider"
      = some (JVal.str spider)) ∧
    (((ScrapydAPI.init (constClient resp) target).schedule
        project spider settings kwargs).2 = getField resp "jobid") := by
  have hred : sentData ((ScrapydAPI.init (constClient resp) target).schedule
        project spider settings kwargs)
      = (if settings.isEmpty
         then dictUpdate
           [("project", JVal.str project), ("spider", JVal.str spider)] kwargs
         else dictInsert
           (dictUpdate
             [("project", JVal.str project), ("spider", JVal.str spider)] kwargs)
           "setting"
           (JVal.list (settings.map (fun q => JVal.str (q.1 ++ "=" ++ q.2))))) := rfl
  have hlookup : ∀ k : String, k ≠ "setting" →
      (sentData ((ScrapydAPI.init (constClient resp) target).schedule
          project spider settings kwargs)).lookup k
        = (dictUpdate
            [("project", JVal.str project), ("spider", JVal.str spider)]
            kwargs).lookup k := by
    intro k hk
    rw [hred]
    cases hemp : settings.isEmpty with
    | true => simp
    | false =>
      simp
      exact lookup_dictInsert_ne _ _ _ _ hk
  refine ⟨?_, ?_, ?_, rfl⟩
  · intro k v hv hk
    rw [hlookup k hk, lookup_dictUpdate _ _ _ hnodup, hv]
    rfl
  · rw [hlookup "project" (by decide), lookup_dictUpdate _ _ _ hnodup, hp]
    rfl
  · rw [hlookup "spider" (by decide), lookup_dictUpdate _ _ _ hnodup, hsp]
    rfl

/-- Witness for C5: the extra keyword `priority = 5` becomes a `priority`
form field next to `project` and `spider`, and `jobid` is extracted. -/
theorem schedule_kwargs_extra_fields_witness :
    (([("priority", JVal.int 5)] : Dict JVal).map Prod.fst).Nodup ∧
    ([("priority", JVal.int 5)] : Dict JVal).lookup "project" = none ∧
    ([("priority", JVal.int 5)] : Dict JVal).lookup "spider" = none ∧
    ((∀ k v, ([("priority", JVal.int 5)] : Dict JVal).lookup k = some v →
        k ≠ "setting" →
      (sentData ((ScrapydAPI.init (constClient (JVal.obj [("jobid", JVal.str "id1")]))
          "http://localhost:6800").schedule "p" "s" []
          [("priority", JVal.int 5)])).lookup k = some v) ∧
    ((sentData ((ScrapydAPI.init (constClient (JVal.obj [("jobid", JVal.str "id1")]))
        "http://localhost:6800").schedule "p" "s" []
        [("priority", JVal.int 5)])).lookup "project" = some (JVal.str "p")) ∧
    ((sentData ((ScrapydAPI.init (constClient (JVal.obj [("jobid", JVal.str "id1")]))
        "http://localhost:6800").schedule "p" "s" []
        [("priority", JVal.int 5)])).lookup "spider" = some (JVal.str "s")) ∧
    (((ScrapydAPI.init (constClient (JVal.obj [("jobid", JVal.str "id1")]))
        "http://localhost:6800").schedule "p" "s" []
        [("priority", JVal.int 5)]).2
      = getField (JVal.obj [("jobid", JVal.str "id1")]) "jobid")) :=
  ⟨by decide, rfl, rfl,
   schedule_kwargs_extra_fields "http://localhost:6800" "p" "s"
     (JVal.obj [("jobid", JVal.str "id1")]) [] [("priority", JVal.int 5)]
     (by decide) rfl rfl⟩

/-- C6: the three list operations return exactly the named response field,
unmodified, and `list_jobs` returns the raw parsed body as-is. -/
theorem list_operations_passthrough (target project : String) (resp : JVal) :
    (((ScrapydAPI.init (constClient resp) target).list_projects).2
      = getField resp "projects") ∧
    (((ScrapydAPI.init (constClient resp) target).list_spiders project).2
      = getField resp "spiders") ∧
    (((ScrapydAPI.init (constClient resp) target).list_versions project).2
      = getField resp "versions") ∧
    (((ScrapydAPI.init (constClient resp) target).list_jobs project).2
      = Except.ok resp) :=
  ⟨rfl, rfl, rfl, rfl⟩

/-- C7: `delete_project` and `delete_version` answer `true` whenever the
delegate call returns, whatever the response body holds; no field of the
response is inspected. -/
theorem delete_operations_always_true (target : String)
    (resp project version : JVal) :
    (((ScrapydAPI.init (constClient resp) target).delete_project project).2
      = Except.ok true) ∧
    (((ScrapydAPI.init (constClient resp) target).delete_version
        project version).2 = Except.ok true) :=
  ⟨rfl, rfl⟩

/-- C8: when the expected field is absent from the response object, the
operation fails with the key-missing error for that field, propagated
unwrapped (`spiders` for `add_version`, `jobid` for `schedule`). -/
theorem missing_field_key_error (target project spider : String)
    (fields : List (String × JVal)) (projectv version egg : JVal)
    (h1 : fields.lookup "spiders" = none)
    (h2 : fields.lookup "jobid" = none) :
    (((ScrapydAPI.init (constClient (JVal.obj fields)) target).add_version
        projectv version egg).2 = Except.error (PyError.keyError "spiders")) ∧
    (((ScrapydAPI.init (constClient (JVal.obj fields)) target).schedule
        project spider [] []).2 = Except.error (PyError.keyError "jobid")) := by
  constructor
  · show getField (JVal.obj fields) "spiders"
        = Except.error (PyError.keyError "spiders")
    simp [getField, h1]
  · show getField (JVal.obj fields) "jobid"
        = Except.error (PyError.keyError "jobid")
    simp [getField, h2]

/-- Witness for C8: a response object carrying only a `status` field. -/
theorem missing_field_key_error_witness :
    ([("status", JVal.str "ok")] : List (String × JVal)).lookup "spiders" = none ∧
    ([("status", JVal.str "ok")] : List (String × JVal)).lookup "jobid" = none ∧
    ((((ScrapydAPI.init (constClient (JVal.obj [("status", JVal.str "ok")]))
        "http://localhost:6800").add_version
        (JVal.str "p") (JVal.str "v") (JVal.str "egg")).2
      = Except.error (PyError.keyError "spiders")) ∧
    (((ScrapydAPI.init (constClient (JVal.obj [("status", JVal.str "ok")]))
        "http://localhost:6800").schedule "p" "s" [] []).2
      = Except.error (PyError.keyError "jobid"))) :=
  ⟨rfl, rfl,
   missing_field_key_error "http://localhost:6800" "p" "s"
     [("status", JVal.str "ok")] (JVal.str "p") (JVal.str "v")
     (JVal.str "egg") rfl rfl⟩

theorem lookup_dictUpdate_not_mem {α : Type} (d e : Dict α) (k : String)
    (h : k ∉ e.map Prod.fst) : (dictUpdate d e).lookup k = d.lookup k := by
  induction e generalizing d with
  | nil => rfl
  | cons p rest ih =>
    have step : dictUpdate d (p :: rest) = dictUpdate (dictInsert d p.1 p.2) rest := by
      simp [dictUpdate]
    have hk : k ≠ p.1 := by
      intro hk
      apply h
      rw [hk]
      exact List.mem_map_of_mem _ (List.mem_cons_self p rest)
    rw [step, ih _ (fun hm => h (List.mem_cons_of_mem _ hm)),
        lookup_dictInsert_ne _ _ _ _ hk]

/-- C10: `kwargs` is merged into the form data after the `project` and
`spider` fields are set, so an extra keyword named `project` or `spider`
silently replaces the positional value in the payload, while keys distinct
from both leave the positional values untouched. -/
theorem schedule_kwargs_override_positional
    (target project spider : String) (resp v w : JVal)
    (kwargs : Dict JVal)
    (hp : "project" ∉ kwargs.map Prod.fst)
    (hs : "spider" ∉ kwargs.map Prod.fst) :
    ((sentData ((ScrapydAPI.init (constClient resp) target).schedule
        project spider [] [("project", v), ("spider", w)])).lookup "project"
      = some v) ∧
    ((sentData ((ScrapydAPI.init (constClient resp) target).schedule
        project spider [] [("project", v), ("spider", w)])).lookup "spider"
      = some w) ∧
    ((sentData ((ScrapydAPI.init (constClient resp) target).schedule
        project spider [] kwargs)).lookup "project"
      = some (JVal.str project)) ∧
    ((sentData ((ScrapydAPI.init (constClient resp) target).schedule
        project spider [] kwargs)).lookup "spider"
      = some (JVal.str spider)) := by
  have hred : sentData ((ScrapydAPI.init (constClient resp) target).schedule
        project spider [] kwargs)
      = dictUpdate
          [("project", JVal.str project), ("spider", JVal.str spider)] kwargs := rfl
  refine ⟨rfl, rfl, ?_, ?_⟩
  · rw [hred, lookup_dictUpdate_not_mem _ _ _ hp]
    rfl
  · rw [hred, lookup_dictUpdate_not_mem _ _ _ hs]
    rfl

/-- Witness for C10: colliding keys `project`/`spider` replace the positional
values; the distinct key `priority` leaves them intact. -/
theorem schedule_kwargs_override_positional_witness :
    "project" ∉ ([("priority", JVal.int 5)] : Dict JVal).map Prod.fst ∧
    "spider" ∉ ([("priority", JVal.int 5)] : Dict JVal).map Prod.fst ∧
    (((sentData ((ScrapydAPI.init (constClient JVal.null)
        "http://localhost:6800").schedule "p" "s" []
        [("project", JVal.str "p2"), ("spider", JVal.str "s2")])).lookup "project"
      = some (JVal.str "p2")) ∧
    ((sentData ((ScrapydAPI.init (constClient JVal.null)
        "http://localhost:6800").schedule "p" "s" []
        [("project", JVal.str "p2"), ("spider", JVal.str "s2")])).lookup "spider"
      = some (JVal.str "s2")) ∧
    ((sentData ((ScrapydAPI.init (constClient JVal.null)
        "http://localhost:6800").schedule "p" "s" []
        [("priority", JVal.int 5)])).lookup "project"
      = some (JVal.str "p")) ∧
    ((sentData ((ScrapydAPI.init (constClient JVal.null)
        "http://localhost:6800").schedule "p" "s" []
        [("priority", JVal.int 5)])).lookup "spider"
      = some (JVal.str "s"))) :=
  ⟨by decide, by decide,
   schedule_kwargs_override_positional "http://localhost:6800" "p" "s"
     JVal.null (JVal.str "p2") (JVal.str "s2") [("priority", JVal.int 5)]
     (by decide) (by decide)⟩
